import Mathlib

/-
  Verification of the EdgeLLM dispatch engine
  (src/edgellm/core/inference_engine.py).

  The engine is embedded shallowly: numeric fields that are Python floats
  become exact rationals (all constants in the source are exact decimals),
  external provider calls become an explicit behavior function returning
  either a normalized response or a structured failure, and the request id
  and elapsed wall-clock time, which the source draws from the clock, are
  passed in as parameters.
-/

namespace EdgeLLM

/-- The ModelProvider enum of the source: two local and two cloud backends. -/
inductive ModelProvider where
  | LOCAL_PHI4
  | LOCAL_MISTRAL
  | GROQ_LLAMA70B
  | GROQ_LLAMA8B
deriving DecidableEq, Repr

/-- InferenceRequest dataclass: prompt, max_tokens, temperature, user_id, tier. -/
structure InferenceRequest where
  prompt : String
  max_tokens : Int := 1024
  temperature : ℚ := 1/10
  user_id : String := "anonymous"
  tier : String := "standard"
deriving DecidableEq, Repr

/-- InferenceResult dataclass: content plus full telemetry. -/
structure InferenceResult where
  content : String
  model_used : ModelProvider
  latency_ms : ℚ
  tokens_in : Int
  tokens_out : Int
  cost_eur : ℚ
  data_location : String
  request_id : String
deriving DecidableEq, Repr

/-- Accumulator pass over the characters for pySplit: cur holds the
reversed characters of the word being read. -/
def pyWordsAux : List Char → List Char → List String
  | [], cur => if cur = [] then [] else [String.mk cur.reverse]
  | c :: rest, cur =>
    if c.isWhitespace then
      if cur = [] then pyWordsAux rest []
      else String.mk cur.reverse :: pyWordsAux rest []
    else pyWordsAux rest (c :: cur)

/-- Python str.split() with no argument: split on whitespace runs,
dropping empty pieces. -/
def pySplit (s : String) : List String :=
  pyWordsAux s.data []

/-- CostAwareRouter.analyze_complexity: a step function of the
whitespace-delimited word count of the prompt. -/
def analyze_complexity (prompt : String) : ℚ :=
  let tokens := (pySplit prompt).length
  if tokens < 50 then 2/10
  else if tokens < 200 then 5/10
  else 8/10

/-- CostAwareRouter.route: the tier/complexity/load decision tree.
The router state is the single field local_load (initialized to 0.0). -/
def route (local_load : ℚ) (request : InferenceRequest) : ModelProvider :=
  let complexity := analyze_complexity request.prompt
  if request.tier = "enterprise" then
    if complexity > 6/10 then .GROQ_LLAMA70B
    else .LOCAL_MISTRAL
  else if request.tier = "premium" then
    if complexity > 7/10 then .GROQ_LLAMA70B
    else if complexity > 4/10 then .LOCAL_MISTRAL
    else .LOCAL_PHI4
  else
    if local_load < 8/10 then
      if complexity > 5/10 then .LOCAL_MISTRAL
      else .LOCAL_PHI4
    else
      .GROQ_LLAMA8B

/-- Structured failures of a provider call, as named by the error taxonomy. -/
inductive ProviderError where
  | ProviderUnavailable
  | ProviderTimeout
  | ProviderProtocolError
deriving DecidableEq, Repr

/-- Normalized response of a backend call: content and usage token counts. -/
structure ProviderResponse where
  content : String
  prompt_tokens : Int
  completion_tokens : Int
deriving DecidableEq, Repr

/-- The external backends behind the OpenAI-style client: given the chosen
provider and the request, either answer or fail. -/
def ProviderBehavior := ModelProvider → InferenceRequest → Except ProviderError ProviderResponse

/-- Exceptions a dispatch attempt can raise, all caught by infer:
a missing model_map key, a raised RuntimeError, or a backend failure. -/
inductive PyError where
  | KeyError
  | RuntimeError (msg : String)
  | Provider (e : ProviderError)
deriving DecidableEq, Repr

/-- InferenceEngine._init_providers, cloud part: the Groq client is built
only when the GROQ_API_KEY environment value is non-empty; otherwise it is
None and a warning is logged. We represent the client by its key. -/
def _init_providers (groq_key : String) : Option String :=
  if groq_key ≠ "" then some groq_key else none

/-- The model_map of InferenceEngine._infer_local; a provider outside the
map raises KeyError when subscripted. -/
def model_map_local : ModelProvider → Option String
  | .LOCAL_PHI4 => some "phi4-mini"
  | .LOCAL_MISTRAL => some "mistral:7b-instruct-q4_K_M"
  | _ => none

/-- The model_map of InferenceEngine._infer_cloud. -/
def model_map_cloud : ModelProvider → Option String
  | .GROQ_LLAMA70B => some "llama-3.3-70b-versatile"
  | .GROQ_LLAMA8B => some "llama-3.1-8b-instant"
  | _ => none

/-- InferenceEngine._infer_local: look up the Ollama model name, call the
local client, and build a Result with zero cost and on-premise location.
Latency is 0.0 here and set by the caller; the request id is a parameter
standing for the clock-derived id string. -/
def _infer_local (behavior : ProviderBehavior) (request : InferenceRequest)
    (provider : ModelProvider) (req_id : String) : Except PyError InferenceResult :=
  match model_map_local provider with
  | none => .error .KeyError
  | some _model =>
    match behavior provider request with
    | .error e => .error (.Provider e)
    | .ok resp =>
      .ok { content := resp.content
            model_used := provider
            latency_ms := 0
            tokens_in := resp.prompt_tokens
            tokens_out := resp.completion_tokens
            cost_eur := 0
            data_location := "on-premise"
            request_id := req_id }

/-- InferenceEngine._infer_cloud: raise RuntimeError when the Groq client
was not initialized, otherwise look up the Groq model name, call the
client, and build a Result with zero cost (Groq free tier) and the
cloud-us location. -/
def _infer_cloud (groq_client : Option String) (behavior : ProviderBehavior)
    (request : InferenceRequest) (provider : ModelProvider) (req_id : String) :
    Except PyError InferenceResult :=
  if groq_client = none then
    .error (.RuntimeError "Groq client not initialized")
  else
    match model_map_cloud provider with
    | none => .error .KeyError
    | some _model =>
      match behavior provider request with
      | .error e => .error (.Provider e)
      | .ok resp =>
        .ok { content := resp.content
              model_used := provider
              latency_ms := 0
              tokens_in := resp.prompt_tokens
              tokens_out := resp.completion_tokens
              cost_eur := 0
              data_location := "cloud-us"
              request_id := req_id }

/-- InferenceEngine._fallback_infer: the degraded Result used when a
primary method fails. -/
def _fallback_infer (fb_id : String) : InferenceResult :=
  { content := "[Service temporarily unavailable - please retry]"
    model_used := .LOCAL_PHI4
    latency_ms := 0
    tokens_in := 0
    tokens_out := 0
    cost_eur := 0
    data_location := "on-premise"
    request_id := fb_id }

/-- The body of the try block of InferenceEngine.infer: dispatch on
whether the routed provider is one of the two local providers and run
the matching variant. Any exception it raises is a PyError value. -/
def dispatchAttempt (local_load : ℚ) (groq_client : Option String)
    (behavior : ProviderBehavior) (req_id : String) (request : InferenceRequest) :
    Except PyError InferenceResult :=
  let model_provider := route local_load request
  if model_provider = .LOCAL_PHI4 ∨ model_provider = .LOCAL_MISTRAL then
    _infer_local behavior request model_provider req_id
  else
    _infer_cloud groq_client behavior request model_provider req_id

/-- InferenceEngine.infer with the router state threaded explicitly.
Nothing in infer, route, _infer_local, _infer_cloud or _fallback_infer
assigns to the router field local_load (its only assignment in the module
is the 0.0 in CostAwareRouter.__init__), so the state passed through is
returned unchanged; the middle component records the value the field
holds at the moment the provider is invoked, for the load-tracking
claims. elapsed_ms stands for the measured wall-clock time of the try
block; req_id and fb_id stand for the two clock-derived id strings. -/
def inferThreaded (local_load : ℚ) (groq_client : Option String)
    (behavior : ProviderBehavior) (elapsed_ms : ℚ) (req_id fb_id : String)
    (request : InferenceRequest) : InferenceResult × ℚ × ℚ :=
  let load_at_invocation := local_load
  match dispatchAttempt local_load groq_client behavior req_id request with
  | .ok result => ({ result with latency_ms := elapsed_ms }, load_at_invocation, local_load)
  | .error _ => (_fallback_infer fb_id, load_at_invocation, local_load)

/-- InferenceEngine.infer: route, execute with the matching variant,
stamp the latency; on any exception fall back to the degraded result. -/
def infer (local_load : ℚ) (groq_client : Option String)
    (behavior : ProviderBehavior) (elapsed_ms : ℚ) (req_id fb_id : String)
    (request : InferenceRequest) : InferenceResult :=
  (inferThreaded local_load groq_client behavior elapsed_ms req_id fb_id request).1

/-- A successful local invocation is exactly: the provider is in the local
model map, the backend answered, and the Result copies the answer with
zero cost and on-premise location. -/
theorem _infer_local_ok_iff (behavior : ProviderBehavior) (request : InferenceRequest)
    (provider : ModelProvider) (req_id : String) (r : InferenceResult) :
    _infer_local behavior request provider req_id = .ok r ↔
      ∃ resp m, model_map_local provider = some m ∧ behavior provider request = .ok resp ∧
        r = { content := resp.content, model_used := provider, latency_ms := 0,
              tokens_in := resp.prompt_tokens, tokens_out := resp.completion_tokens,
              cost_eur := 0, data_location := "on-premise", request_id := req_id } := by
  unfold _infer_local
  cases hm : model_map_local provider <;> simp [hm] <;>
    cases hb : behavior provider request <;> simp [hb, eq_comm]

/-- A successful cloud invocation is exactly: the Groq client exists, the
provider is in the cloud model map, the backend answered, and the Result
copies the answer with zero cost and the cloud-us location. -/
theorem _infer_cloud_ok_iff (groq_client : Option String) (behavior : ProviderBehavior)
    (request : InferenceRequest) (provider : ModelProvider) (req_id : String)
    (r : InferenceResult) :
    _infer_cloud groq_client behavior request provider req_id = .ok r ↔
      ∃ resp m, groq_client ≠ none ∧ model_map_cloud provider = some m ∧
        behavior provider request = .ok resp ∧
        r = { content := resp.content, model_used := provider, latency_ms := 0,
              tokens_in := resp.prompt_tokens, tokens_out := resp.completion_tokens,
              cost_eur := 0, data_location := "cloud-us", request_id := req_id } := by
  unfold _infer_cloud
  cases groq_client <;> simp <;>
    cases hm : model_map_cloud provider <;> simp [hm] <;>
      cases hb : behavior provider request <;> simp [hb, eq_comm]

/-- Every dispatch returns either the degraded fallback Result or a Result
built from a successful backend answer for the routed provider, with zero
cost, the measured latency, and the location matching the variant run. -/
theorem infer_eq_cases (local_load : ℚ) (groq_client : Option String)
    (behavior : ProviderBehavior) (elapsed_ms : ℚ) (req_id fb_id : String)
    (request : InferenceRequest) :
    infer local_load groq_client behavior elapsed_ms req_id fb_id request =
        _fallback_infer fb_id ∨
    ∃ resp, behavior (route local_load request) request = .ok resp ∧
      infer local_load groq_client behavior elapsed_ms req_id fb_id request =
        { content := resp.content, model_used := route local_load request,
          latency_ms := elapsed_ms, tokens_in := resp.prompt_tokens,
          tokens_out := resp.completion_tokens, cost_eur := 0,
          data_location :=
            if route local_load request = .LOCAL_PHI4 ∨
               route local_load request = .LOCAL_MISTRAL
            then "on-premise" else "cloud-us",
          request_id := req_id } := by
  simp only [infer, inferThreaded, dispatchAttempt]
  by_cases hloc : route local_load request = ModelProvider.LOCAL_PHI4 ∨
      route local_load request = ModelProvider.LOCAL_MISTRAL
  · simp only [if_pos hloc]
    cases hatt : _infer_local behavior request (route local_load request) req_id with
    | ok result =>
        right
        rw [_infer_local_ok_iff] at hatt
        obtain ⟨resp, m, _, hb, hr⟩ := hatt
        exact ⟨resp, hb, by simp [hr, if_pos hloc]⟩
    | error e => left; rfl
  · simp only [if_neg hloc]
    cases hatt : _infer_cloud groq_client behavior request (route local_load request) req_id with
    | ok result =>
        right
        rw [_infer_cloud_ok_iff] at hatt
        obtain ⟨resp, m, _, _, hb, hr⟩ := hatt
        exact ⟨resp, hb, by simp [hr, if_neg hloc]⟩
    | error e => left; rfl

/-- C4: the complexity estimate is a pure step function of the
whitespace-delimited word count of the prompt: fewer than 50 words yields
0.2, 50 to 199 words yields 0.5, 200 or more yields 0.8, and the score
always lies in the interval from 0 to 1. -/
theorem analyze_complexity_step_function (prompt : String) :
    (((pySplit prompt).length < 50 → analyze_complexity prompt = 2/10) ∧
     (50 ≤ (pySplit prompt).length ∧ (pySplit prompt).length < 200 →
        analyze_complexity prompt = 5/10) ∧
     (200 ≤ (pySplit prompt).length → analyze_complexity prompt = 8/10)) ∧
    0 ≤ analyze_complexity prompt ∧ analyze_complexity prompt ≤ 1 := by
  simp only [analyze_complexity]
  refine ⟨⟨?_, ?_, ?_⟩, ?_⟩ <;> split_ifs with h1 h2 <;>
    first
      | (intro h; omega)
      | (intro h; rfl)
      | norm_num

unseal Rat.mul Rat.inv in
/-- Witness for C4 at the two-word prompt "hello world". -/
theorem analyze_complexity_step_function_witness :
    (pySplit "hello world").length < 50 ∧ analyze_complexity "hello world" = 2/10 :=
  ⟨by decide, (analyze_complexity_step_function "hello world").1.1 (by decide)⟩

/-- C1: the routing decision follows the tier decision table: enterprise
goes to the strong cloud provider above complexity 0.6 and to the strong
local provider otherwise; premium goes strong cloud above 0.7, strong
local in (0.4, 0.7], fast local otherwise; every other tier string goes,
under load below 0.8, strong local above complexity 0.5 and fast local
otherwise, and, at load 0.8 or more, fast cloud. -/
theorem route_follows_decision_table (local_load : ℚ) (request : InferenceRequest) :
    (request.tier = "enterprise" →
      (analyze_complexity request.prompt > 6/10 →
        route local_load request = .GROQ_LLAMA70B) ∧
      (¬ analyze_complexity request.prompt > 6/10 →
        route local_load request = .LOCAL_MISTRAL)) ∧
    (request.tier = "premium" →
      (analyze_complexity request.prompt > 7/10 →
        route local_load request = .GROQ_LLAMA70B) ∧
      (4/10 < analyze_complexity request.prompt ∧ analyze_complexity request.prompt ≤ 7/10 →
        route local_load request = .LOCAL_MISTRAL) ∧
      (analyze_complexity request.prompt ≤ 4/10 →
        route local_load request = .LOCAL_PHI4)) ∧
    (request.tier ≠ "enterprise" → request.tier ≠ "premium" →
      (local_load < 8/10 →
        (analyze_complexity request.prompt > 5/10 →
          route local_load request = .LOCAL_MISTRAL) ∧
        (¬ analyze_complexity request.prompt > 5/10 →
          route local_load request = .LOCAL_PHI4)) ∧
      (8/10 ≤ local_load → route local_load request = .GROQ_LLAMA8B)) := by
  simp only [route]
  split_ifs with h1 h2 h3 h4 h5 h6 h7 h8 <;>
    refine ⟨?_, ?_, ?_⟩ <;> intro ht <;>
    simp_all <;> try constructor <;> try intro hc
  all_goals first | rfl | linarith | tauto

unseal Rat.mul Rat.inv in
/-- Witness for C1: an enterprise request with a short prompt routes to
the strong local provider. -/
theorem route_follows_decision_table_witness :
    ({ prompt := "hi", tier := "enterprise" } : InferenceRequest).tier = "enterprise" ∧
    ¬ analyze_complexity "hi" > 6/10 ∧
    route 0 { prompt := "hi", tier := "enterprise" } = .LOCAL_MISTRAL :=
  ⟨rfl, by decide,
    ((route_follows_decision_table 0 { prompt := "hi", tier := "enterprise" }).1 rfl).2
      (by decide)⟩

/-- C2: when the routed provider invocation fails with any exception,
infer does not propagate the error: it returns the degraded Result whose
provider identity is the fixed local provider LOCAL_PHI4, whose content
is the unavailability marker, with cost zero, zero tokens in and out, and
location on-premise. -/
theorem infer_degrades_on_provider_failure (local_load : ℚ)
    (groq_client : Option String) (behavior : ProviderBehavior) (elapsed_ms : ℚ)
    (req_id fb_id : String) (request : InferenceRequest) (pe : PyError)
    (h : dispatchAttempt local_load groq_client behavior req_id request = .error pe) :
    (infer local_load groq_client behavior elapsed_ms req_id fb_id request).model_used =
        ModelProvider.LOCAL_PHI4 ∧
    (infer local_load groq_client behavior elapsed_ms req_id fb_id request).content =
        "[Service temporarily unavailable - please retry]" ∧
    (infer local_load groq_client behavior elapsed_ms req_id fb_id request).cost_eur = 0 ∧
    (infer local_load groq_client behavior elapsed_ms req_id fb_id request).tokens_in = 0 ∧
    (infer local_load groq_client behavior elapsed_ms req_id fb_id request).tokens_out = 0 ∧
    (infer local_load groq_client behavior elapsed_ms req_id fb_id request).data_location =
        "on-premise" := by
  simp [infer, inferThreaded, h, _fallback_infer]

unseal Rat.mul Rat.inv in
/-- Witness for C2: a provider that always reports ProviderUnavailable
still yields the degraded on-premise Result. -/
theorem infer_degrades_on_provider_failure_witness :
    dispatchAttempt 0 none (fun _ _ => .error .ProviderUnavailable) "r1"
        { prompt := "hello world" } = .error (.Provider .ProviderUnavailable) ∧
    ((infer 0 none (fun _ _ => .error .ProviderUnavailable) 5 "r1" "f1"
        { prompt := "hello world" }).model_used = ModelProvider.LOCAL_PHI4 ∧
     (infer 0 none (fun _ _ => .error .ProviderUnavailable) 5 "r1" "f1"
        { prompt := "hello world" }).content =
        "[Service temporarily unavailable - please retry]" ∧
     (infer 0 none (fun _ _ => .error .ProviderUnavailable) 5 "r1" "f1"
        { prompt := "hello world" }).cost_eur = 0 ∧
     (infer 0 none (fun _ _ => .error .ProviderUnavailable) 5 "r1" "f1"
        { prompt := "hello world" }).tokens_in = 0 ∧
     (infer 0 none (fun _ _ => .error .ProviderUnavailable) 5 "r1" "f1"
        { prompt := "hello world" }).tokens_out = 0 ∧
     (infer 0 none (fun _ _ => .error .ProviderUnavailable) 5 "r1" "f1"
        { prompt := "hello world" }).data_location = "on-premise") :=
  ⟨rfl, infer_degrades_on_provider_failure 0 none _ 5 "r1" "f1" _ _ rfl⟩

unseal Rat.mul Rat.inv in
/-- C3 counterexample: the request with empty prompt, max_tokens 0 and an
unrecognized tier is not rejected: infer routes it to the fast local
provider and, when the backend answers, returns the backend's answer as a
normal Result. -/
theorem infer_accepts_malformed_request :
    route 0 { prompt := "", max_tokens := 0, tier := "not-a-tier" } =
      ModelProvider.LOCAL_PHI4 ∧
    infer 0 none (fun _ _ => .ok ⟨"routed-ok", 3, 5⟩) 5 "r1" "f1"
        { prompt := "", max_tokens := 0, tier := "not-a-tier" } =
      { content := "routed-ok", model_used := ModelProvider.LOCAL_PHI4, latency_ms := 5,
        tokens_in := 3, tokens_out := 5, cost_eur := 0,
        data_location := "on-premise", request_id := "r1" } := by
  decide

/-- C3 amended: infer performs no input validation: every request,
including one with non-positive max_tokens, an empty prompt or an
unrecognized tier, is routed, and infer returns either a Result carrying
the routed provider identity or the degraded fallback Result; it never
returns an InvalidRequest error (its return type has no error at all). -/
theorem infer_never_rejects (local_load : ℚ) (groq_client : Option String)
    (behavior : ProviderBehavior) (elapsed_ms : ℚ) (req_id fb_id : String)
    (request : InferenceRequest) :
    (infer local_load groq_client behavior elapsed_ms req_id fb_id request).model_used =
        route local_load request ∨
    infer local_load groq_client behavior elapsed_ms req_id fb_id request =
        _fallback_infer fb_id := by
  rcases infer_eq_cases local_load groq_client behavior elapsed_ms req_id fb_id request with
    hf | ⟨resp, _, hr⟩
  · right; exact hf
  · left; rw [hr]

/-- C5: every Result produced by any dispatch path keeps provider identity
and execution location consistent: a local provider identity is always
paired with location on-premise and never a cloud location, and a cloud
provider identity is never paired with on-premise. -/
theorem infer_provider_location_consistent (local_load : ℚ) (groq_client : Option String)
    (behavior : ProviderBehavior) (elapsed_ms : ℚ) (req_id fb_id : String)
    (request : InferenceRequest) :
    (((infer local_load groq_client behavior elapsed_ms req_id fb_id request).model_used =
        ModelProvider.LOCAL_PHI4 ∨
      (infer local_load groq_client behavior elapsed_ms req_id fb_id request).model_used =
        ModelProvider.LOCAL_MISTRAL) →
      (infer local_load groq_client behavior elapsed_ms req_id fb_id request).data_location =
          "on-premise" ∧
      (infer local_load groq_client behavior elapsed_ms req_id fb_id request).data_location ≠
          "cloud-eu" ∧
      (infer local_load groq_client behavior elapsed_ms req_id fb_id request).data_location ≠
          "cloud-us") ∧
    (((infer local_load groq_client behavior elapsed_ms req_id fb_id request).model_used =
        ModelProvider.GROQ_LLAMA70B ∨
      (infer local_load groq_client behavior elapsed_ms req_id fb_id request).model_used =
        ModelProvider.GROQ_LLAMA8B) →
      (infer local_load groq_client behavior elapsed_ms req_id fb_id request).data_location ≠
          "on-premise") := by
  rcases infer_eq_cases local_load groq_client behavior elapsed_ms req_id fb_id request with
    hf | ⟨resp, hb, hr⟩
  · rw [hf]
    constructor
    · intro _
      refine ⟨rfl, by simp [_fallback_infer], by simp [_fallback_infer]⟩
    · intro hm
      rcases hm with hm | hm <;> simp [_fallback_infer] at hm
  · rw [hr]
    by_cases hloc : route local_load request = ModelProvider.LOCAL_PHI4 ∨
        route local_load request = ModelProvider.LOCAL_MISTRAL
    · constructor
      · intro _
        simp [if_pos hloc]
      · intro hm
        rcases hloc with h1 | h1 <;> rcases hm with h2 | h2 <;> simp_all
    · simp only [if_neg hloc]
      constructor
      · intro hm
        exact absurd hm hloc
      · intro _
        simp

unseal Rat.mul Rat.inv in
/-- Witness for C5: a short standard-tier request runs on the fast local
provider and reports the on-premise location. -/
theorem infer_provider_location_consistent_witness :
    ((infer 0 none (fun _ _ => .ok ⟨"ok", 3, 5⟩) 5 "r1" "f1" { prompt := "hi" }).model_used =
        ModelProvider.LOCAL_PHI4 ∨
     (infer 0 none (fun _ _ => .ok ⟨"ok", 3, 5⟩) 5 "r1" "f1" { prompt := "hi" }).model_used =
        ModelProvider.LOCAL_MISTRAL) ∧
    ((infer 0 none (fun _ _ => .ok ⟨"ok", 3, 5⟩) 5 "r1" "f1" { prompt := "hi" }).data_location =
        "on-premise" ∧
     (infer 0 none (fun _ _ => .ok ⟨"ok", 3, 5⟩) 5 "r1" "f1" { prompt := "hi" }).data_location ≠
        "cloud-eu" ∧
     (infer 0 none (fun _ _ => .ok ⟨"ok", 3, 5⟩) 5 "r1" "f1" { prompt := "hi" }).data_location ≠
        "cloud-us") :=
  ⟨Or.inl (by decide),
   (infer_provider_location_consistent 0 none (fun _ _ => .ok ⟨"ok", 3, 5⟩) 5 "r1" "f1"
      { prompt := "hi" }).1 (Or.inl (by decide))⟩

/-- C6: every Result produced by invoking a local provider records cost
exactly zero. -/
theorem local_result_cost_zero (behavior : ProviderBehavior) (request : InferenceRequest)
    (provider : ModelProvider) (req_id : String) (r : InferenceResult)
    (h : _infer_local behavior request provider req_id = .ok r) :
    r.cost_eur = 0 := by
  rw [_infer_local_ok_iff] at h
  obtain ⟨resp, m, _, _, hr⟩ := h
  rw [hr]

/-- Witness for C6 at a concrete successful local call. -/
theorem local_result_cost_zero_witness :
    _infer_local (fun _ _ => .ok ⟨"four", 3, 2⟩) { prompt := "What is 2+2?" }
        .LOCAL_MISTRAL "id" =
      .ok { content := "four", model_used := .LOCAL_MISTRAL, latency_ms := 0,
            tokens_in := 3, tokens_out := 2, cost_eur := 0,
            data_location := "on-premise", request_id := "id" } ∧
    ({ content := "four", model_used := .LOCAL_MISTRAL, latency_ms := 0,
       tokens_in := 3, tokens_out := 2, cost_eur := 0,
       data_location := "on-premise", request_id := "id" } : InferenceResult).cost_eur = 0 :=
  ⟨rfl, local_result_cost_zero (fun _ _ => .ok ⟨"four", 3, 2⟩) { prompt := "What is 2+2?" }
      .LOCAL_MISTRAL "id" _ rfl⟩

/-- C7 counterexample: a successful cloud invocation with positive token
counts (10 in, 20 out) still records cost zero, and zero is not positive;
the cost is hard-coded, not computed from a base cost and token counts. -/
theorem cloud_cost_ignores_tokens :
    (_infer_cloud (some "key") (fun _ _ => .ok ⟨"ans", 10, 20⟩) { prompt := "p" }
        .GROQ_LLAMA70B "id").map InferenceResult.cost_eur = .ok 0 ∧
    ¬ ((0 : ℚ) > 0) :=
  ⟨rfl, by norm_num⟩

/-- C7 amended: the cost recorded by every successful invocation, cloud or
local, is exactly zero; no base cost or token count enters it. -/
theorem result_cost_always_zero (groq_client : Option String) (behavior : ProviderBehavior)
    (request : InferenceRequest) (provider : ModelProvider) (req_id : String)
    (r : InferenceResult) :
    (_infer_cloud groq_client behavior request provider req_id = .ok r → r.cost_eur = 0) ∧
    (_infer_local behavior request provider req_id = .ok r → r.cost_eur = 0) := by
  constructor
  · intro h
    rw [_infer_cloud_ok_iff] at h
    obtain ⟨resp, m, _, _, _, hr⟩ := h
    rw [hr]
  · intro h
    rw [_infer_local_ok_iff] at h
    obtain ⟨resp, m, _, _, hr⟩ := h
    rw [hr]

/-- Witness for the amended C7 at a concrete successful cloud call. -/
theorem result_cost_always_zero_witness :
    _infer_cloud (some "key") (fun _ _ => .ok ⟨"ans", 10, 20⟩) { prompt := "p" }
        .GROQ_LLAMA8B "id" =
      .ok { content := "ans", model_used := .GROQ_LLAMA8B, latency_ms := 0,
            tokens_in := 10, tokens_out := 20, cost_eur := 0,
            data_location := "cloud-us", request_id := "id" } ∧
    ({ content := "ans", model_used := .GROQ_LLAMA8B, latency_ms := 0,
       tokens_in := 10, tokens_out := 20, cost_eur := 0,
       data_location := "cloud-us", request_id := "id" } : InferenceResult).cost_eur = 0 :=
  ⟨rfl, (result_cost_always_zero (some "key") (fun _ _ => .ok ⟨"ans", 10, 20⟩)
      { prompt := "p" } .GROQ_LLAMA8B "id" _).1 rfl⟩

/-- C8 amended: the dispatch path never mutates the shared load counter:
the value it holds at the moment of provider invocation and the value
after the dispatch completes (success, failure or fallback) both equal
the value before the dispatch began. -/
theorem dispatch_leaves_load_unchanged (local_load : ℚ) (groq_client : Option String)
    (behavior : ProviderBehavior) (elapsed_ms : ℚ) (req_id fb_id : String)
    (request : InferenceRequest) :
    (inferThreaded local_load groq_client behavior elapsed_ms req_id fb_id request).2.1 =
        local_load ∧
    (inferThreaded local_load groq_client behavior elapsed_ms req_id fb_id request).2.2 =
        local_load := by
  unfold inferThreaded
  cases dispatchAttempt local_load groq_client behavior req_id request <;> simp

unseal Rat.mul Rat.inv in
/-- C8 counterexample: a dispatch routed to the local provider LOCAL_PHI4
observes the load counter still at its initial value 0 at invocation
time: it was not incremented before the provider invocation. -/
theorem load_not_incremented_for_local_dispatch :
    route 0 { prompt := "hello world" } = ModelProvider.LOCAL_PHI4 ∧
    (inferThreaded 0 none (fun _ _ => .ok ⟨"ok", 3, 5⟩) 5 "r1" "f1"
        { prompt := "hello world" }).2.1 = 0 ∧
    ¬ (inferThreaded 0 none (fun _ _ => .ok ⟨"ok", 3, 5⟩) 5 "r1" "f1"
        { prompt := "hello world" }).2.1 > 0 := by
  decide

/-- C9: with no credential at startup the Groq client is already None
after initialization, and every later cloud-targeted invocation fails
deterministically with the fixed not-configured error, whatever the
request, provider or backend behavior. -/
theorem cloud_unconfigured_detected_at_init (groq_key : String) (h : groq_key = "") :
    _init_providers groq_key = none ∧
    ∀ (behavior : ProviderBehavior) (request : InferenceRequest)
      (provider : ModelProvider) (req_id : String),
      _infer_cloud (_init_providers groq_key) behavior request provider req_id =
        .error (.RuntimeError "Groq client not initialized") := by
  subst h
  exact ⟨rfl, fun _ _ _ _ => rfl⟩

/-- Witness for C9 at the empty key and a concrete invocation. -/
theorem cloud_unconfigured_detected_at_init_witness :
    ("" : String) = "" ∧
    (_init_providers "" = none ∧
     _infer_cloud (_init_providers "") (fun _ _ => .ok ⟨"ans", 1, 1⟩) { prompt := "p" }
        .GROQ_LLAMA70B "id" = .error (.RuntimeError "Groq client not initialized")) :=
  ⟨rfl, (cloud_unconfigured_detected_at_init "" rfl).1,
        (cloud_unconfigured_detected_at_init "" rfl).2 (fun _ _ => .ok ⟨"ans", 1, 1⟩)
          { prompt := "p" } .GROQ_LLAMA70B "id"⟩

/-- C10: every successful cloud Result reports location cloud-us, and no
dispatch ever produces a Result located in cloud-eu. -/
theorem cloud_location_always_cloud_us (local_load : ℚ) (groq_client : Option String)
    (behavior : ProviderBehavior) (elapsed_ms : ℚ) (req_id fb_id : String)
    (request : InferenceRequest) (provider : ModelProvider) (r : InferenceResult) :
    (_infer_cloud groq_client behavior request provider req_id = .ok r →
      r.data_location = "cloud-us") ∧
    (infer local_load groq_client behavior elapsed_ms req_id fb_id request).data_location ≠
      "cloud-eu" := by
  constructor
  · intro h
    rw [_infer_cloud_ok_iff] at h
    obtain ⟨resp, m, _, _, _, hr⟩ := h
    rw [hr]
  · rcases infer_eq_cases local_load groq_client behavior elapsed_ms req_id fb_id request with
      hf | ⟨resp, _, hr⟩
    · rw [hf]
      simp [_fallback_infer]
    · rw [hr]
      by_cases hloc : route local_load request = ModelProvider.LOCAL_PHI4 ∨
          route local_load request = ModelProvider.LOCAL_MISTRAL
      · simp [if_pos hloc]
      · simp [if_neg hloc]

unseal Rat.mul Rat.inv in
/-- Witness for C10 at a concrete successful cloud call. -/
theorem cloud_location_always_cloud_us_witness :
    _infer_cloud (some "key") (fun _ _ => .ok ⟨"ans", 1, 2⟩) { prompt := "p" }
        .GROQ_LLAMA8B "id" =
      .ok { content := "ans", model_used := .GROQ_LLAMA8B, latency_ms := 0,
            tokens_in := 1, tokens_out := 2, cost_eur := 0,
            data_location := "cloud-us", request_id := "id" } ∧
    ({ content := "ans", model_used := .GROQ_LLAMA8B, latency_ms := 0,
       tokens_in := 1, tokens_out := 2, cost_eur := 0,
       data_location := "cloud-us", request_id := "id" } : InferenceResult).data_location =
      "cloud-us" ∧
    (infer 0 (some "key") (fun _ _ => .ok ⟨"ans", 1, 2⟩) 5 "id" "f1"
        { prompt := "p" }).data_location ≠ "cloud-eu" :=
  ⟨rfl,
   (cloud_location_always_cloud_us 0 (some "key") (fun _ _ => .ok ⟨"ans", 1, 2⟩) 5 "id" "f1"
      { prompt := "p" } .GROQ_LLAMA8B _).1 rfl,
   (cloud_location_always_cloud_us 0 (some "key") (fun _ _ => .ok ⟨"ans", 1, 2⟩) 5 "id" "f1"
      { prompt := "p" } .GROQ_LLAMA8B
      { content := "ans", model_used := .GROQ_LLAMA8B, latency_ms := 0,
        tokens_in := 1, tokens_out := 2, cost_eur := 0,
        data_location := "cloud-us", request_id := "id" }).2⟩

end EdgeLLM
